import Mathlib

/-!
Verification development for the physics scene core
(`Source/Engine/Physics/PhysicsScene.cpp`).

The C++ core is shallowly embedded: pure decision logic (the pair filter
shader, the vehicle input pre-processing) becomes Lean functions; the
stateful scene façade (`Simulate`, `CollectResults`, `FlushRequests`, the
deferred mutation queues, the vehicle wheel buffers) becomes explicit
state-passing functions over record types, with externally observable
side effects (backend calls, releases, event-collector notifications)
recorded in an event trace. Real-valued quantities are modelled with `ℚ`
(the source logic only compares, clamps, negates and takes absolute
values, so rationals are exact for every property proved here).
-/

namespace OB3D

/-! ## Pair filter shader (`FilterShader`) -/

/-- PhysX per-shape filter data: four 32-bit words used as bit masks. -/
structure PxFilterData where
  word0 : Nat
  word1 : Nat
  word2 : Nat
  word3 : Nat
deriving DecidableEq

/-- The two attribute bits of a filter object the shader inspects. -/
structure PxFilterObjectAttributes where
  isTrigger : Bool
  isKinematic : Bool
deriving DecidableEq

/-- Return value of a PhysX filter shader. -/
inductive PxFilterFlag
  | eDEFAULT
  | eSUPPRESS
  | eKILL
deriving DecidableEq

/-- The pair flags the shader may OR into its in-out `pairFlags` argument
(PhysX hands the shader a zeroed set). -/
structure PxPairFlags where
  eSOLVE_CONTACT : Bool := false
  eDETECT_DISCRETE_CONTACT : Bool := false
  eNOTIFY_TOUCH_FOUND : Bool := false
  eNOTIFY_TOUCH_PERSISTS : Bool := false
  eNOTIFY_TOUCH_LOST : Bool := false
  ePOST_SOLVER_VELOCITY : Bool := false
  eNOTIFY_CONTACT_POINTS : Bool := false
deriving DecidableEq

/-- The zeroed pair-flag set the shader starts from. -/
def noPairFlags : PxPairFlags := {}

def PxFilterObjectIsTrigger (a : PxFilterObjectAttributes) : Bool :=
  a.isTrigger

def PxFilterObjectIsKinematic (a : PxFilterObjectAttributes) : Bool :=
  a.isKinematic

/-- Embedding of `FilterShader` (PhysicsScene.cpp lines 23-61): trigger
pairs pass with touch found/lost notification, kinematic-kinematic pairs
are suppressed with full touch notification, mask-matching pairs get
contact solving plus notification, and everything else is killed. -/
def FilterShader (attributes0 : PxFilterObjectAttributes) (filterData0 : PxFilterData)
    (attributes1 : PxFilterObjectAttributes) (filterData1 : PxFilterData) :
    PxFilterFlag × PxPairFlags :=
  if PxFilterObjectIsTrigger attributes0 || PxFilterObjectIsTrigger attributes1 then
    (PxFilterFlag.eDEFAULT,
      { noPairFlags with
        eNOTIFY_TOUCH_FOUND := true
        eNOTIFY_TOUCH_LOST := true
        eDETECT_DISCRETE_CONTACT := true })
  else if PxFilterObjectIsKinematic attributes0 && PxFilterObjectIsKinematic attributes1 then
    (PxFilterFlag.eSUPPRESS,
      { noPairFlags with
        eNOTIFY_TOUCH_FOUND := true
        eNOTIFY_TOUCH_PERSISTS := true
        eNOTIFY_TOUCH_LOST := true
        eDETECT_DISCRETE_CONTACT := true })
  else if (filterData0.word0 &&& filterData1.word1 ≠ 0) ∧ (filterData1.word0 &&& filterData0.word1 ≠ 0) then
    (PxFilterFlag.eDEFAULT,
      { noPairFlags with
        eSOLVE_CONTACT := true
        eDETECT_DISCRETE_CONTACT := true
        eNOTIFY_TOUCH_FOUND := true
        eNOTIFY_TOUCH_PERSISTS := true
        ePOST_SOLVER_VELOCITY := true
        eNOTIFY_CONTACT_POINTS := true })
  else
    (PxFilterFlag.eKILL, noPairFlags)

/-- C2: for every shape pair, the filter shader (a) notifies trigger pairs
of touch found/lost without contact solving, (b) suppresses
kinematic-kinematic pairs while notifying touch found/persists/lost with
no solving, (c) fully solves and notifies pairs whose bit masks match on
both sides, and (d) kills every other pair with no event and no solve. -/
theorem C2_filterShader_cases (attributes0 : PxFilterObjectAttributes) (filterData0 : PxFilterData)
    (attributes1 : PxFilterObjectAttributes) (filterData1 : PxFilterData) :
    ((attributes0.isTrigger = true ∨ attributes1.isTrigger = true) →
      (FilterShader attributes0 filterData0 attributes1 filterData1).1 = PxFilterFlag.eDEFAULT ∧
      (FilterShader attributes0 filterData0 attributes1 filterData1).2.eNOTIFY_TOUCH_FOUND = true ∧
      (FilterShader attributes0 filterData0 attributes1 filterData1).2.eNOTIFY_TOUCH_LOST = true ∧
      (FilterShader attributes0 filterData0 attributes1 filterData1).2.eSOLVE_CONTACT = false) ∧
    (attributes0.isTrigger = false → attributes1.isTrigger = false →
     attributes0.isKinematic = true → attributes1.isKinematic = true →
      (FilterShader attributes0 filterData0 attributes1 filterData1).1 = PxFilterFlag.eSUPPRESS ∧
      (FilterShader attributes0 filterData0 attributes1 filterData1).2.eNOTIFY_TOUCH_FOUND = true ∧
      (FilterShader attributes0 filterData0 attributes1 filterData1).2.eNOTIFY_TOUCH_PERSISTS = true ∧
      (FilterShader attributes0 filterData0 attributes1 filterData1).2.eNOTIFY_TOUCH_LOST = true ∧
      (FilterShader attributes0 filterData0 attributes1 filterData1).2.eSOLVE_CONTACT = false) ∧
    (attributes0.isTrigger = false → attributes1.isTrigger = false →
     ¬(attributes0.isKinematic = true ∧ attributes1.isKinematic = true) →
     filterData0.word0 &&& filterData1.word1 ≠ 0 → filterData1.word0 &&& filterData0.word1 ≠ 0 →
      (FilterShader attributes0 filterData0 attributes1 filterData1).1 = PxFilterFlag.eDEFAULT ∧
      (FilterShader attributes0 filterData0 attributes1 filterData1).2.eSOLVE_CONTACT = true ∧
      (FilterShader attributes0 filterData0 attributes1 filterData1).2.eNOTIFY_TOUCH_FOUND = true ∧
      (FilterShader attributes0 filterData0 attributes1 filterData1).2.eNOTIFY_TOUCH_PERSISTS = true) ∧
    (attributes0.isTrigger = false → attributes1.isTrigger = false →
     ¬(attributes0.isKinematic = true ∧ attributes1.isKinematic = true) →
     ¬(filterData0.word0 &&& filterData1.word1 ≠ 0 ∧ filterData1.word0 &&& filterData0.word1 ≠ 0) →
      (FilterShader attributes0 filterData0 attributes1 filterData1).1 = PxFilterFlag.eKILL ∧
      (FilterShader attributes0 filterData0 attributes1 filterData1).2 = noPairFlags) := by
  obtain ⟨t0, k0⟩ := attributes0
  obtain ⟨t1, k1⟩ := attributes1
  refine ⟨?_, ?_, ?_, ?_⟩
  · rintro (h | h) <;> simp_all [FilterShader, PxFilterObjectIsTrigger, noPairFlags]
  · intro h0 h1 h2 h3
    simp_all [FilterShader, PxFilterObjectIsTrigger, PxFilterObjectIsKinematic, noPairFlags]
  · intro h0 h1 hk hm0 hm1
    cases k0 <;> cases k1 <;>
      simp_all [FilterShader, PxFilterObjectIsTrigger, PxFilterObjectIsKinematic, noPairFlags]
  · intro h0 h1 hk hm
    by_cases hc : (filterData0.word0 &&& filterData1.word1 ≠ 0) ∧ (filterData1.word0 &&& filterData0.word1 ≠ 0)
    · exact absurd hc hm
    · have h0' : t0 = false := h0
      have h1' : t1 = false := h1
      have ht : ¬(PxFilterObjectIsTrigger ⟨t0, k0⟩ || PxFilterObjectIsTrigger ⟨t1, k1⟩) = true := by
        simp [PxFilterObjectIsTrigger, h0', h1']
      have hkin : ¬(PxFilterObjectIsKinematic ⟨t0, k0⟩ && PxFilterObjectIsKinematic ⟨t1, k1⟩) = true := by
        simpa [PxFilterObjectIsKinematic, Bool.and_eq_true] using hk
      refine ⟨?_, ?_⟩ <;> simp only [FilterShader, if_neg ht, if_neg hkin, if_neg hc]

/-- C2 witness: the kinematic-kinematic branch evaluated at a concrete
pair of kinematic, non-trigger objects. -/
theorem C2_filterShader_cases_witness :
    (FilterShader ⟨false, true⟩ ⟨1, 2, 0, 0⟩ ⟨false, true⟩ ⟨2, 1, 0, 0⟩).1 = PxFilterFlag.eSUPPRESS ∧
    (FilterShader ⟨false, true⟩ ⟨1, 2, 0, 0⟩ ⟨false, true⟩ ⟨2, 1, 0, 0⟩).2.eSOLVE_CONTACT = false := by
  have h := (C2_filterShader_cases ⟨false, true⟩ ⟨1, 2, 0, 0⟩ ⟨false, true⟩ ⟨2, 1, 0, 0⟩).2.1
    rfl rfl rfl rfl
  exact ⟨h.1, h.2.2.2.2⟩

/-! ## Deferred mutation queues and `FlushRequests` -/

/-- Application-level identity of a `PxActor`. -/
abbrev ActorId := Nat

/-- Application-level identity of a `PhysicsColliderActor`. -/
abbrev ColliderId := Nat

/-- Application-level identity of a `Joint`. -/
abbrev JointId := Nat

/-- Application-level identity of a `PxMaterial`. -/
abbrev MaterialId := Nat

/-- Application-level identity of a generic `PxBase` object. -/
abbrev ObjectId := Nat

/-- Kinds of deferred actor actions (source enum `ActionType`). -/
inductive ActionType
  | Sleep
deriving DecidableEq

/-- A queued (action kind, actor) pair (source struct `ActionData`;
the source field `Type` is spelled `actionType` here). -/
structure ActionData where
  actionType : ActionType
  Actor : ActorId
deriving DecidableEq

/-- Externally observable effect of one backend call performed during a
flush, recorded in execution order. -/
inductive FlushEvent
  | addActorsBulk (actors : List ActorId)
  | putToSleep (actor : ActorId)
  | removeActorsBulk (actors : List ActorId)
  | releaseActor (actor : ActorId)
  | onColliderRemoved (collider : ColliderId)
  | onJointRemoved (joint : JointId)
  | clearMaterialUserData (material : MaterialId)
  | releaseMaterial (material : MaterialId)
  | releaseObject (obj : ObjectId)
deriving DecidableEq

/-- The seven pending-mutation queues guarded by `mFlushLocker`. -/
structure QueueState where
  mNewActors : List ActorId
  mActions : List ActionData
  mDeadActors : List ActorId
  mDeadColliders : List ColliderId
  mDeadJoints : List JointId
  mDeadMaterials : List MaterialId
  mDeadObjects : List ObjectId
deriving DecidableEq

/-- All queues drained. -/
def emptyQueues : QueueState := ⟨[], [], [], [], [], [], []⟩

/-- The live backend world as the flush logic observes it: which actors
are present and which have been put to sleep. -/
structure WorldState where
  actors : List ActorId
  sleeping : List ActorId
deriving DecidableEq

/-- One iteration of the flush's action loop
(PhysicsScene.cpp lines 615-625): a `Sleep` action puts the queued actor
to sleep. -/
def applyAction (acc : WorldState × List FlushEvent) (action : ActionData) :
    WorldState × List FlushEvent :=
  match action.actionType with
  | ActionType.Sleep =>
      ({ acc.1 with sleeping := acc.1.sleeping ++ [action.Actor] },
       acc.2 ++ [FlushEvent.putToSleep action.Actor])

/-- Embedding of `PhysicsScene::FlushRequests`
(PhysicsScene.cpp lines 598-673): drains the pending queues against the
live world in source order, logging every externally observable backend
call into the returned trace. -/
def FlushRequests (q : QueueState) (w : WorldState) :
    QueueState × WorldState × List FlushEvent :=
  let trace : List FlushEvent := []
  -- if (mNewActors.HasItems()) { addActors(...); mNewActors.Clear(); }
  let (q, w, trace) :=
    if q.mNewActors ≠ [] then
      ({ q with mNewActors := [] },
       { w with actors := w.actors ++ q.mNewActors },
       trace ++ [FlushEvent.addActorsBulk q.mNewActors])
    else (q, w, trace)
  -- for each queued action: putToSleep; then mActions.Clear()
  let (w, trace) := q.mActions.foldl applyAction (w, trace)
  let q := { q with mActions := [] }
  -- if (mDeadActors.HasItems()) { removeActors(...); per-actor release(); Clear(); }
  let (q, w, trace) :=
    if q.mDeadActors ≠ [] then
      ({ q with mDeadActors := [] },
       { w with actors := w.actors.filter (fun a => !q.mDeadActors.contains a) },
       q.mDeadActors.foldl (fun t a => t ++ [FlushEvent.releaseActor a])
         (trace ++ [FlushEvent.removeActorsBulk q.mDeadActors]))
    else (q, w, trace)
  -- if (mDeadColliders.HasItems()) { per-collider OnColliderRemoved; Clear(); }
  let (q, trace) :=
    if q.mDeadColliders ≠ [] then
      ({ q with mDeadColliders := [] },
       q.mDeadColliders.foldl (fun t c => t ++ [FlushEvent.onColliderRemoved c]) trace)
    else (q, trace)
  -- if (mDeadJoints.HasItems()) { per-joint OnJointRemoved; Clear(); }
  let (q, trace) :=
    if q.mDeadJoints ≠ [] then
      ({ q with mDeadJoints := [] },
       q.mDeadJoints.foldl (fun t j => t ++ [FlushEvent.onJointRemoved j]) trace)
    else (q, trace)
  -- for each dead material: userData = nullptr; release(); then Clear()
  let trace :=
    q.mDeadMaterials.foldl
      (fun t m => t ++ [FlushEvent.clearMaterialUserData m, FlushEvent.releaseMaterial m]) trace
  let q := { q with mDeadMaterials := [] }
  -- for each dead object: release(); then Clear()
  let trace := q.mDeadObjects.foldl (fun t o => t ++ [FlushEvent.releaseObject o]) trace
  let q := { q with mDeadObjects := [] }
  (q, w, trace)

/-- Embedding of `PhysicsScene::AddActor(PxActor*)`
(PhysicsScene.cpp lines 693-707): immediate insertion from the
stepping-owner thread, otherwise enqueued. -/
def AddActor (isInMainThread : Bool) (q : QueueState) (w : WorldState) (actor : ActorId) :
    QueueState × WorldState :=
  if isInMainThread then
    (q, { w with actors := w.actors ++ [actor] })
  else
    ({ q with mNewActors := q.mNewActors ++ [actor] }, w)

/-- Embedding of the `PhysicsScene::AddActor(PxRigidDynamic*, bool)`
overload (PhysicsScene.cpp lines 709-727): immediate insertion plus
immediate sleep from the stepping-owner thread, otherwise both are
enqueued. -/
def AddDynamicActor (isInMainThread : Bool) (q : QueueState) (w : WorldState)
    (actor : ActorId) (putToSleep : Bool) : QueueState × WorldState :=
  if isInMainThread then
    (q, { w with
          actors := w.actors ++ [actor]
          sleeping := if putToSleep then w.sleeping ++ [actor] else w.sleeping })
  else
    ({ q with
       mNewActors := q.mNewActors ++ [actor]
       mActions := if putToSleep then q.mActions ++ [⟨ActionType.Sleep, actor⟩] else q.mActions },
     w)

/-! ### Fold lemmas for the flush loops -/

theorem foldl_append_events {β : Type} (g : β → List FlushEvent) (l : List β)
    (t : List FlushEvent) :
    l.foldl (fun acc b => acc ++ g b) t = t ++ (l.map g).flatten := by
  induction l generalizing t with
  | nil => simp
  | cons b bs ih => simp [ih]

theorem join_map_singleton {β : Type} (f : β → FlushEvent) (l : List β) :
    (l.map fun b => [f b]).flatten = l.map f := by
  induction l with
  | nil => rfl
  | cons b bs ih => simp [ih]

theorem applyAction_foldl (l : List ActionData) (w : WorldState) (t : List FlushEvent) :
    l.foldl applyAction (w, t) =
      ({ w with sleeping := w.sleeping ++ l.map (fun a => a.Actor) },
       t ++ l.map fun a => FlushEvent.putToSleep a.Actor) := by
  induction l generalizing w t with
  | nil => simp
  | cons a as ih =>
    cases ha : a.actionType
    simp [List.foldl_cons, applyAction, ha, ih]

/-- C1: a flush performs, in this exact order: the bulk add of queued new
actors, the queued sleep actions, the bulk removal of queued dead actors
followed by their releases (so each release happens only after removal),
the collider-removed notifications, the joint-removed notifications, the
material userData unlink immediately followed by the material release for
each dead material, and the generic object releases; and it leaves every
queue empty. -/
theorem C1_flushRequests_order (q : QueueState) (w : WorldState) :
    (FlushRequests q w).1 = emptyQueues ∧
    (FlushRequests q w).2.2 =
      (if q.mNewActors = [] then [] else [FlushEvent.addActorsBulk q.mNewActors]) ++
      (q.mActions.map fun a => FlushEvent.putToSleep a.Actor) ++
      (if q.mDeadActors = [] then []
       else FlushEvent.removeActorsBulk q.mDeadActors ::
            q.mDeadActors.map FlushEvent.releaseActor) ++
      q.mDeadColliders.map FlushEvent.onColliderRemoved ++
      q.mDeadJoints.map FlushEvent.onJointRemoved ++
      ((q.mDeadMaterials.map fun m =>
          [FlushEvent.clearMaterialUserData m, FlushEvent.releaseMaterial m]).flatten) ++
      q.mDeadObjects.map FlushEvent.releaseObject := by
  obtain ⟨na, ac, da, dc, dj, dm, dob⟩ := q
  simp only [FlushRequests, applyAction_foldl, foldl_append_events, emptyQueues]
  split_ifs <;>
    simp_all [join_map_singleton, QueueState.mk.injEq, List.append_assoc]

/-- The world a flush produces: queued new actors are added, queued dead
actors are removed, queued sleep actions are applied. -/
theorem flushRequests_world (q : QueueState) (w : WorldState) :
    (FlushRequests q w).2.1 =
      { actors := (w.actors ++ q.mNewActors).filter fun a => !q.mDeadActors.contains a,
        sleeping := w.sleeping ++ q.mActions.map fun a => a.Actor } := by
  obtain ⟨na, ac, da, dc, dj, dm, dob⟩ := q
  simp only [FlushRequests, applyAction_foldl, foldl_append_events]
  split_ifs <;> simp_all [WorldState.mk.injEq, List.filter_eq_self]

/-- C6: an actor added from the thread that owns scene stepping is
inserted into the live world immediately (and put to sleep immediately
when requested) with every queue untouched; an actor added from any other
thread leaves the world untouched, lands in the pending queues (with its
sleep action), and is present in the world (respectively asleep) after
the next flush. -/
theorem C6_addActor_threading (q : QueueState) (w : WorldState) (actor : ActorId)
    (putToSleep : Bool) (hNotDead : actor ∉ q.mDeadActors) :
    AddActor true q w actor = (q, { w with actors := w.actors ++ [actor] }) ∧
    AddDynamicActor true q w actor putToSleep =
      (q, { w with
            actors := w.actors ++ [actor]
            sleeping := if putToSleep then w.sleeping ++ [actor] else w.sleeping }) ∧
    ((AddActor false q w actor).2 = w ∧
     (AddActor false q w actor).1 = { q with mNewActors := q.mNewActors ++ [actor] }) ∧
    ((AddDynamicActor false q w actor putToSleep).2 = w ∧
     (AddDynamicActor false q w actor putToSleep).1 =
       { q with
         mNewActors := q.mNewActors ++ [actor]
         mActions := if putToSleep then q.mActions ++ [⟨ActionType.Sleep, actor⟩]
                     else q.mActions }) ∧
    actor ∈ (FlushRequests (AddActor false q w actor).1 w).2.1.actors ∧
    (putToSleep = true →
      actor ∈ (FlushRequests (AddDynamicActor false q w actor putToSleep).1 w).2.1.sleeping) := by
  refine ⟨rfl, rfl, ⟨rfl, rfl⟩, ⟨rfl, rfl⟩, ?_, ?_⟩
  · simp [AddActor, flushRequests_world, List.mem_filter, hNotDead]
  · intro hs
    simp [AddDynamicActor, flushRequests_world, hs]

/-- C6 witness: adding actor 7 to an empty scene, from both threads. -/
theorem C6_addActor_threading_witness :
    AddActor true emptyQueues ⟨[], []⟩ 7 = (emptyQueues, ⟨[7], []⟩) ∧
    7 ∈ (FlushRequests (AddActor false emptyQueues ⟨[], []⟩ 7).1 ⟨[], []⟩).2.1.actors := by
  have h := C6_addActor_threading emptyQueues ⟨[], []⟩ 7 true (by decide)
  exact ⟨h.1, h.2.2.2.2.1⟩

/-! ## Scene settings, stepper and the `Simulate` / `CollectResults` protocol -/

/-- A 3-component vector over `ℚ`. -/
structure Vector3 where
  x : ℚ
  y : ℚ
  z : ℚ
deriving DecidableEq

/-- The engine's zero vector (`Vector3::Zero`). -/
def Vector3.zero : Vector3 := ⟨0, 0, 0⟩

/-- The engine-wide physics settings the scene consults
(`PhysicsSettings`). -/
structure PhysicsSettings where
  DefaultGravity : Vector3
  DisableCCD : Bool
  EnableAdaptiveForce : Bool
  BounceThresholdVelocity : ℚ
  MaxDeltaTime : ℚ
  EnableSubstepping : Bool
  SubstepDeltaTime : ℚ
  MaxSubsteps : Nat
deriving DecidableEq

/-- Embedding of `Math::Clamp(value, lo, hi)`. -/
def MathClamp (value lo hi : ℚ) : ℚ :=
  if value < lo then lo else if value > hi then hi else value

/-- The stepper configuration installed by `Simulate`
(`Stepper::Setup`, single-step or substep mode). -/
inductive StepperSetup
  | single (dt : ℚ)
  | substeps (subDt : ℚ) (maxSubsteps : Nat)
deriving DecidableEq

/-- Modelled from the spec: the stepper's minimal simulatable epsilon
(§4.1: `advance` "returns false without effect if `dt` is below a minimal
epsilon"). The stepper implementation is not part of src; any positive
epsilon realises the contract. -/
def stepperEpsilon : ℚ := 1 / 100000

/-- Modelled from the spec: `Stepper::advance` (§4.1) dispatches the
step — here, appending the simulated delta to the world's step trace —
and returns `none` (false) without effect when `dt` is below the minimal
simulatable epsilon. -/
def stepperAdvance (steps : List ℚ) (dt : ℚ) : Option (List ℚ) :=
  if dt < stepperEpsilon then none else some (steps ++ [dt])

/-- The scene façade state driving the step/fetch protocol. `steps` is
the simulated dynamics trace: the sequence of deltas actually stepped by
the backend (the simulation world state is a function of it). -/
structure SimState where
  queues : QueueState
  world : WorldState
  steps : List ℚ
  mLastDeltaTime : ℚ
  mIsDuringSimulation : Bool
  mScratchMemoryAllocated : Bool
  mStepperCreated : Bool
  stepperSetup : Option StepperSetup
  eventsCallbackCleared : Nat
  renderDoneCalls : Nat
deriving DecidableEq

/-- Embedding of `PhysicsScene::Simulate`
(PhysicsScene.cpp lines 218-259): flush pending mutations, clamp the
delta, lazily allocate scratch memory and stepper, configure single-step
or substep mode, set the mid-step flag, then dispatch; an advance refusal
(delta too small) returns early without recording anything. -/
def Simulate (settings : PhysicsSettings) (s : SimState) (dt : ℚ) : SimState :=
  let fl := FlushRequests s.queues s.world
  let s := { s with queues := fl.1, world := fl.2.1 }
  let dtc := MathClamp dt 0 settings.MaxDeltaTime
  let s := { s with mScratchMemoryAllocated := true, mStepperCreated := true }
  let s := { s with
             stepperSetup := some
               (if settings.EnableSubstepping then
                 StepperSetup.substeps settings.SubstepDeltaTime settings.MaxSubsteps
                else StepperSetup.single dtc) }
  let s := { s with mIsDuringSimulation := true }
  match stepperAdvance s.steps dtc with
  | none => s
  | some steps2 =>
      { s with
        steps := steps2
        eventsCallbackCleared := s.eventsCallbackCleared + 1
        mLastDeltaTime := dtc
        renderDoneCalls := s.renderDoneCalls + 1 }

/-- Embedding of the `PhysicsScene::CollectResults` control skeleton
(PhysicsScene.cpp lines 266-596): a no-op when no step is in flight,
otherwise the full wait/vehicle/transform/event pipeline runs (its
vehicle phases are modelled in detail by `computeVehicleInput`,
`updateWheelBuffers` and `setupWheelQueryRecords` below) and the mid-step
flag is cleared last. The returned flag reports whether the full
pipeline ran. -/
def CollectResults (s : SimState) : SimState × Bool :=
  if s.mIsDuringSimulation = false then (s, false)
  else ({ s with mIsDuringSimulation := false }, true)

/-- The clamp of a degenerate delta stays below the stepper epsilon. -/
theorem mathClamp_lt_eps (dt M e : ℚ) (he : 0 < e) (h : dt ≤ 0 ∨ dt < e) :
    MathClamp dt 0 M < e := by
  unfold MathClamp
  split_ifs with h1 h2 <;> rcases h with h | h <;> linarith

/-- C4: a `Simulate` call with a delta that is zero, negative, or below
the stepper's minimal simulatable epsilon skips the step: the simulated
dynamics trace and `mLastDeltaTime` are unchanged (and, when no mutations
are pending, the live world is unchanged too). -/
theorem C4_simulate_degenerate (settings : PhysicsSettings) (s : SimState) (dt : ℚ)
    (h : dt ≤ 0 ∨ dt < stepperEpsilon) :
    (Simulate settings s dt).steps = s.steps ∧
    (Simulate settings s dt).mLastDeltaTime = s.mLastDeltaTime ∧
    (s.queues = emptyQueues → (Simulate settings s dt).world = s.world) := by
  have heps : (0 : ℚ) < stepperEpsilon := by norm_num [stepperEpsilon]
  have hlt := mathClamp_lt_eps dt settings.MaxDeltaTime stepperEpsilon heps h
  refine ⟨?_, ?_, ?_⟩ <;>
    simp [Simulate, stepperAdvance, if_pos hlt, flushRequests_world]
  intro hq
  obtain ⟨wa, ws⟩ := s.world
  simp [hq, emptyQueues]

/-- C4 witness: a zero delta on a quiescent scene. -/
theorem C4_simulate_degenerate_witness :
    ((0 : ℚ) ≤ 0 ∨ (0 : ℚ) < stepperEpsilon) ∧
    (Simulate ⟨Vector3.zero, false, false, 2, 1, false, 1 / 50, 4⟩
        ⟨emptyQueues, ⟨[], []⟩, [], 0, false, false, false, none, 0, 0⟩ 0).steps = [] := by
  refine ⟨Or.inl le_rfl, ?_⟩
  exact (C4_simulate_degenerate ⟨Vector3.zero, false, false, 2, 1, false, 1 / 50, 4⟩
    ⟨emptyQueues, ⟨[], []⟩, [], 0, false, false, false, none, 0, 0⟩ 0 (Or.inl le_rfl)).1

/-- C5: a dispatched `Simulate` whose delta exceeds `MaxDeltaTime` steps
the backend by `clamp(dt, 0, MaxDeltaTime)` and records that same value
in `mLastDeltaTime`; with a non-negative `MaxDeltaTime` the clamp equals
`MaxDeltaTime` itself. -/
theorem C5_simulate_clamps (settings : PhysicsSettings) (s : SimState) (dt : ℚ)
    (hdt : dt > settings.MaxDeltaTime)
    (hdisp : stepperEpsilon ≤ MathClamp dt 0 settings.MaxDeltaTime) :
    (Simulate settings s dt).steps = s.steps ++ [MathClamp dt 0 settings.MaxDeltaTime] ∧
    (Simulate settings s dt).mLastDeltaTime = MathClamp dt 0 settings.MaxDeltaTime ∧
    (0 ≤ settings.MaxDeltaTime →
      MathClamp dt 0 settings.MaxDeltaTime = settings.MaxDeltaTime) := by
  have hnlt : ¬MathClamp dt 0 settings.MaxDeltaTime < stepperEpsilon := not_lt.mpr hdisp
  refine ⟨?_, ?_, ?_⟩
  · simp [Simulate, stepperAdvance, if_neg hnlt]
  · simp [Simulate, stepperAdvance, if_neg hnlt]
  · intro hM
    unfold MathClamp
    split_ifs <;> linarith

/-- C5 witness: `dt = 2` against `MaxDeltaTime = 1`. -/
theorem C5_simulate_clamps_witness :
    (2 : ℚ) > 1 ∧ stepperEpsilon ≤ MathClamp 2 0 1 ∧
    (Simulate ⟨Vector3.zero, false, false, 2, 1, false, 1 / 50, 4⟩
        ⟨emptyQueues, ⟨[], []⟩, [], 0, false, false, false, none, 0, 0⟩ 2).mLastDeltaTime =
      MathClamp 2 0 1 := by
  have h1 : (2 : ℚ) > 1 := by norm_num
  have h2 : stepperEpsilon ≤ MathClamp 2 0 1 := by norm_num [stepperEpsilon, MathClamp]
  exact ⟨h1, h2,
    (C5_simulate_clamps ⟨Vector3.zero, false, false, 2, 1, false, 1 / 50, 4⟩
      ⟨emptyQueues, ⟨[], []⟩, [], 0, false, false, false, none, 0, 0⟩ 2 h1 h2).2.1⟩

/-- C9: every `Simulate` call — a skipped one included — leaves the
mid-step flag set, so the next `CollectResults` takes the full pipeline
and is the one to clear the flag; a `CollectResults` with the flag clear
is a no-op. -/
theorem C9_midstep_flag (settings : PhysicsSettings) (s : SimState) (dt : ℚ)
    (_hpre : s.mIsDuringSimulation = false) :
    (Simulate settings s dt).mIsDuringSimulation = true ∧
    (CollectResults (Simulate settings s dt)).2 = true ∧
    (CollectResults (Simulate settings s dt)).1.mIsDuringSimulation = false ∧
    (∀ t : SimState, t.mIsDuringSimulation = false → CollectResults t = (t, false)) := by
  have hflag : (Simulate settings s dt).mIsDuringSimulation = true := by
    by_cases hc : MathClamp dt 0 settings.MaxDeltaTime < stepperEpsilon <;>
      simp [Simulate, stepperAdvance, hc]
  refine ⟨hflag, ?_, ?_, ?_⟩
  · simp [CollectResults, hflag]
  · simp [CollectResults, hflag]
  · intro t ht
    simp [CollectResults, ht]

/-- C9 witness: a too-small delta on a quiescent scene still flips the
flag and forces the next fetch through the pipeline. -/
theorem C9_midstep_flag_witness :
    (Simulate ⟨Vector3.zero, false, false, 2, 1, false, 1 / 50, 4⟩
        ⟨emptyQueues, ⟨[], []⟩, [], 0, false, false, false, none, 0, 0⟩ 0).mIsDuringSimulation
      = true ∧
    (CollectResults (Simulate ⟨Vector3.zero, false, false, 2, 1, false, 1 / 50, 4⟩
        ⟨emptyQueues, ⟨[], []⟩, [], 0, false, false, false, none, 0, 0⟩ 0)).2 = true := by
  have h := C9_midstep_flag ⟨Vector3.zero, false, false, 2, 1, false, 1 / 50, 4⟩
    ⟨emptyQueues, ⟨[], []⟩, [], 0, false, false, false, none, 0, 0⟩ 0 rfl
  exact ⟨h.1, h.2.1⟩

/-! ## Scene-wide settings getters on a dead scene -/

/-- The backend scene state the settings getters pass through to when a
live world exists. -/
structure PxSceneM where
  gravity : Vector3
  ccdEnabled : Bool
  bounceThresholdVelocity : ℚ
deriving DecidableEq

/-- Embedding of `PhysicsScene::GetGravity`
(PhysicsScene.cpp lines 191-194): backend gravity when a world exists,
otherwise `Vector3::Zero`. -/
def GetGravity (mScene : Option PxSceneM) : Vector3 :=
  match mScene with
  | some s => s.gravity
  | none => Vector3.zero

/-- Embedding of `PhysicsScene::GetEnableCCD`
(PhysicsScene.cpp lines 196-199): backend CCD flag when a world exists,
otherwise the negation of the engine's CCD-disable setting. -/
def GetEnableCCD (settings : PhysicsSettings) (mScene : Option PxSceneM) : Bool :=
  match mScene with
  | some s => s.ccdEnabled
  | none => !settings.DisableCCD

/-- Embedding of `PhysicsScene::GetBounceThresholdVelocity`
(PhysicsScene.cpp lines 207-210): backend value when a world exists,
otherwise the engine default. -/
def GetBounceThresholdVelocity (settings : PhysicsSettings) (mScene : Option PxSceneM) : ℚ :=
  match mScene with
  | some s => s.bounceThresholdVelocity
  | none => settings.BounceThresholdVelocity

/-- C8 counterexample: with no live world and an engine default gravity of
`(0, -981, 0)`, `GetGravity` returns `Vector3::Zero`, not the engine
default gravity the claim promises. -/
theorem C8_getGravity_counterexample :
    GetGravity none = Vector3.zero ∧
    GetGravity none ≠
      (⟨⟨0, -981, 0⟩, false, false, 2, 1 / 10, false, 1 / 50, 4⟩ :
        PhysicsSettings).DefaultGravity := by
  constructor
  · rfl
  · intro h
    have hy : (0 : ℚ) = -981 := congrArg Vector3.y h
    norm_num at hy

/-- C8 amended: on a scene with no live world, `GetGravity` returns the
zero vector (not the engine default gravity), `GetEnableCCD` returns the
negation of the engine's CCD-disable flag, and
`GetBounceThresholdVelocity` returns the engine default bounce-threshold
velocity; none of them consults a backend world. -/
theorem C8_null_scene_defaults (settings : PhysicsSettings) :
    GetGravity none = Vector3.zero ∧
    GetEnableCCD settings none = !settings.DisableCCD ∧
    GetBounceThresholdVelocity settings none = settings.BounceThresholdVelocity :=
  ⟨rfl, rfl, rfl⟩

/-! ## Vehicle input pre-processing (reverse-as-brake policy) -/

/-- Modelled from the spec: the engine's `ZeroTolerance` epsilon used in
the automatic-gear-change deadband (the constant's header is not in src;
no claim proved here depends on its value beyond positivity). -/
def ZeroTolerance : ℚ := 1 / 1000000

/-- The control state of a wheeled vehicle as the per-frame input loop of
`CollectResults` reads it. -/
structure WheeledVehicleCtrl where
  _throttle : ℚ
  _brake : ℚ
  forwardSpeed : ℚ
  currentGear : Int
  targetGear : Int
  UseReverseAsBrake : Bool
deriving DecidableEq

/-- Modelled from the spec: `WheeledVehicle::SetCurrentGear` (setter not
in src): the automatic gear change "flips the gear sign", installing the
requested gear as both the current and the target gear. -/
def setCurrentGear (v : WheeledVehicleCtrl) (g : Int) : WheeledVehicleCtrl :=
  { v with currentGear := g, targetGear := g }

/-- Embedding of the per-vehicle input pre-processing of
`PhysicsScene::CollectResults` (PhysicsScene.cpp lines 298-353): the
reverse-as-brake state machine (automatic gear flip inside the ±80
deadband, full brake when throttle opposes motion beyond it, throttle
blocked while the target gear opposes the throttle sign, absolute-valued
throttle), else plain non-negative throttle. Returns the vehicle after
any gear change and the effective (throttle, brake) handed to the input
smoother. -/
def computeVehicleInput (v : WheeledVehicleCtrl) : WheeledVehicleCtrl × ℚ × ℚ :=
  let throttle := v._throttle
  let brake := v._brake
  if v.UseReverseAsBrake then
    let invalidDirectionThreshold : ℚ := 80
    let breakThreshold : ℚ := 8
    let forwardSpeed := v.forwardSpeed
    -- automatic gear change when changing driving direction
    let v :=
      if |forwardSpeed| < invalidDirectionThreshold then
        if throttle < -ZeroTolerance ∧ v.currentGear ≥ 0 ∧ v.targetGear ≥ 0 then
          setCurrentGear v (-1)
        else if throttle > ZeroTolerance ∧ v.currentGear ≤ 0 ∧ v.targetGear ≤ 0 then
          setCurrentGear v 1
        else v
      else v
    -- automatic brake when changing driving direction
    let brake :=
      if throttle > 0 then
        if forwardSpeed < -invalidDirectionThreshold then (1 : ℚ) else brake
      else if throttle < 0 then
        if forwardSpeed > invalidDirectionThreshold then (1 : ℚ) else brake
      else
        if forwardSpeed < breakThreshold ∧ forwardSpeed > -breakThreshold then (1 : ℚ)
        else brake
    -- block throttle if user is changing driving direction
    let throttle :=
      if (throttle > 0 ∧ v.targetGear < 0) ∨ (throttle < 0 ∧ v.targetGear > 0) then (0 : ℚ)
      else throttle
    (v, |throttle|, brake)
  else
    (v, max throttle 0, brake)

/-- C3 counterexample: at forward speed `-90` with raw throttle `+0.5`
but a non-negative target gear (gear `1`, e.g. a car being pushed
backwards), the brake is forced to `1` yet the effective throttle stays
`0.5` — the claim's unconditional "throttle forced to 0" fails. -/
theorem C3_reverseAsBrake_counterexample :
    (computeVehicleInput ⟨1 / 2, 0, -90, 1, 1, true⟩).2.2 = 1 ∧
    (computeVehicleInput ⟨1 / 2, 0, -90, 1, 1, true⟩).2.1 = 1 / 2 ∧
    ¬(computeVehicleInput ⟨1 / 2, 0, -90, 1, 1, true⟩).2.1 = 0 := by
  refine ⟨?_, ?_, ?_⟩ <;>
    norm_num [computeVehicleInput, setCurrentGear, ZeroTolerance, abs]

/-- C3 amended: with the reverse-as-brake policy on, forward speed `-90`
(below the `-80` invalid-direction threshold), raw throttle `+0.5`, and a
target gear that opposes the throttle (negative), the effective brake
passed to the input smoother is forced to `1` and the effective throttle
is forced to `0`. -/
theorem C3_reverseAsBrake_amended (v : WheeledVehicleCtrl)
    (hpolicy : v.UseReverseAsBrake = true)
    (hspeed : v.forwardSpeed = -90)
    (hthrottle : v._throttle = 1 / 2)
    (hgear : v.targetGear < 0) :
    (computeVehicleInput v).2.2 = 1 ∧ (computeVehicleInput v).2.1 = 0 := by
  obtain ⟨th, br, fs, cg, tg, rb⟩ := v
  simp only at hpolicy hspeed hthrottle hgear
  subst hpolicy hspeed hthrottle
  constructor <;>
    norm_num [computeVehicleInput, setCurrentGear, ZeroTolerance, abs, hgear]

/-- C3 witness: a vehicle reversing at speed `-90` in gear `-1` with
throttle `+0.5` gets brake `1` and throttle `0`. -/
theorem C3_reverseAsBrake_amended_witness :
    (computeVehicleInput ⟨1 / 2, 0, -90, -1, -1, true⟩).2.2 = 1 ∧
    (computeVehicleInput ⟨1 / 2, 0, -90, -1, -1, true⟩).2.1 = 0 :=
  C3_reverseAsBrake_amended ⟨1 / 2, 0, -90, -1, -1, true⟩ rfl rfl rfl (by norm_num)

/-! ## Vehicle wheel-state buffers -/

/-- Modelled from the spec: the engine's growable `Array` type (not in
src) abstracted to its element count and allocation capacity; `Resize`
sets the count and grows the allocation when the count exceeds it, never
shrinking it (§9: a "capacity-tracked growable buffer"; §3: capacity is a
"high-water mark"). -/
structure PodArray where
  count : Nat
  capacity : Nat
deriving DecidableEq

/-- Embedding of `Array::Resize(size, false)` under the capacity abstraction. -/
def PodArray.resize (a : PodArray) (n : Nat) : PodArray :=
  ⟨n, max a.capacity n⟩

/-- The four shared wheel-state buffers of the scene, plus the capacity
the batched raycast query object was last built for. -/
structure WheelBuffersState where
  mWheelQueryResults : PodArray
  mWheelHitResults : PodArray
  mWheelVehiclesResultsPerVehicle : PodArray
  mWheelVehiclesResultsPerWheel : PodArray
  mWheelRaycastBatchQuery : Option Nat
deriving DecidableEq

/-- Embedding of the wheel-buffer maintenance of one `CollectResults`
frame (PhysicsScene.cpp lines 463-476 and 490-492): the raycast
query/hit buffers and the batch query object are rebuilt only when the
frame's total wheel count exceeds the stored element count, while the
per-vehicle and per-wheel result buffers are resized to the frame's
active-vehicle and wheel counts. -/
def updateWheelBuffers (b : WheelBuffersState) (activeVehicleCount wheelsCount : Nat) :
    WheelBuffersState :=
  let b :=
    if wheelsCount > b.mWheelQueryResults.count then
      { b with
        mWheelQueryResults := b.mWheelQueryResults.resize wheelsCount
        mWheelHitResults := b.mWheelHitResults.resize wheelsCount
        mWheelRaycastBatchQuery := some wheelsCount }
    else b
  { b with
    mWheelVehiclesResultsPerVehicle :=
      b.mWheelVehiclesResultsPerVehicle.resize activeVehicleCount
    mWheelVehiclesResultsPerWheel := b.mWheelVehiclesResultsPerWheel.resize wheelsCount }

/-- A sequence of `CollectResults` frames, each contributing its
(active-vehicle count, total wheel count) pair. -/
def runWheelFrames (b : WheelBuffersState) : List (Nat × Nat) → WheelBuffersState
  | [] => b
  | f :: rest => runWheelFrames (updateWheelBuffers b f.1 f.2) rest

theorem updateWheelBuffers_caps_mono (b : WheelBuffersState) (av wc : Nat) :
    b.mWheelQueryResults.capacity ≤ (updateWheelBuffers b av wc).mWheelQueryResults.capacity ∧
    b.mWheelHitResults.capacity ≤ (updateWheelBuffers b av wc).mWheelHitResults.capacity ∧
    b.mWheelVehiclesResultsPerVehicle.capacity ≤
      (updateWheelBuffers b av wc).mWheelVehiclesResultsPerVehicle.capacity ∧
    b.mWheelVehiclesResultsPerWheel.capacity ≤
      (updateWheelBuffers b av wc).mWheelVehiclesResultsPerWheel.capacity := by
  unfold updateWheelBuffers
  split_ifs <;> simp [PodArray.resize]

theorem updateWheelBuffers_query_inv (b : WheelBuffersState) (av wc : Nat)
    (hq : b.mWheelQueryResults.count = b.mWheelQueryResults.capacity) :
    (updateWheelBuffers b av wc).mWheelQueryResults.count =
      (updateWheelBuffers b av wc).mWheelQueryResults.capacity := by
  unfold updateWheelBuffers
  split_ifs with h <;> simp_all [PodArray.resize] <;> omega

theorem runWheelFrames_caps_mono (frames : List (Nat × Nat)) (b : WheelBuffersState) :
    b.mWheelQueryResults.capacity ≤ (runWheelFrames b frames).mWheelQueryResults.capacity ∧
    b.mWheelHitResults.capacity ≤ (runWheelFrames b frames).mWheelHitResults.capacity ∧
    b.mWheelVehiclesResultsPerVehicle.capacity ≤
      (runWheelFrames b frames).mWheelVehiclesResultsPerVehicle.capacity ∧
    b.mWheelVehiclesResultsPerWheel.capacity ≤
      (runWheelFrames b frames).mWheelVehiclesResultsPerWheel.capacity := by
  induction frames generalizing b with
  | nil => simp [runWheelFrames]
  | cons f rest ih =>
    have h1 := updateWheelBuffers_caps_mono b f.1 f.2
    have h2 := ih (updateWheelBuffers b f.1 f.2)
    simp only [runWheelFrames]
    exact ⟨le_trans h1.1 h2.1, le_trans h1.2.1 h2.2.1,
      le_trans h1.2.2.1 h2.2.2.1, le_trans h1.2.2.2 h2.2.2.2⟩

theorem runWheelFrames_query_inv (frames : List (Nat × Nat)) :
    ∀ b : WheelBuffersState,
      b.mWheelQueryResults.count = b.mWheelQueryResults.capacity →
      (runWheelFrames b frames).mWheelQueryResults.count =
        (runWheelFrames b frames).mWheelQueryResults.capacity := by
  induction frames with
  | nil => exact fun b hq => hq
  | cons f rest ih =>
    intro b hq
    exact ih _ (updateWheelBuffers_query_inv b f.1 f.2 hq)

/-- C7: across any sequence of `CollectResults` frames, the wheel-state
buffer capacities never shrink; and in any single frame the wheel-sized
buffers (raycast query results, raycast hit results, per-wheel results)
grow only when that frame's total wheel count across active vehicles
exceeds their stored capacity (given the query buffer's count-equals-
capacity invariant, which every frame preserves). -/
theorem C7_wheelBuffers_monotone (b : WheelBuffersState) (frames : List (Nat × Nat))
    (hq : b.mWheelQueryResults.count = b.mWheelQueryResults.capacity) :
    (b.mWheelQueryResults.capacity ≤
       (runWheelFrames b frames).mWheelQueryResults.capacity ∧
     b.mWheelHitResults.capacity ≤ (runWheelFrames b frames).mWheelHitResults.capacity ∧
     b.mWheelVehiclesResultsPerVehicle.capacity ≤
       (runWheelFrames b frames).mWheelVehiclesResultsPerVehicle.capacity ∧
     b.mWheelVehiclesResultsPerWheel.capacity ≤
       (runWheelFrames b frames).mWheelVehiclesResultsPerWheel.capacity) ∧
    (runWheelFrames b frames).mWheelQueryResults.count =
      (runWheelFrames b frames).mWheelQueryResults.capacity ∧
    (∀ c : WheelBuffersState, ∀ av wc : Nat,
      c.mWheelQueryResults.count = c.mWheelQueryResults.capacity →
      ((updateWheelBuffers c av wc).mWheelQueryResults.capacity >
          c.mWheelQueryResults.capacity → wc > c.mWheelQueryResults.capacity) ∧
      ((updateWheelBuffers c av wc).mWheelHitResults.capacity >
          c.mWheelHitResults.capacity → wc > c.mWheelHitResults.capacity) ∧
      ((updateWheelBuffers c av wc).mWheelVehiclesResultsPerWheel.capacity >
          c.mWheelVehiclesResultsPerWheel.capacity →
        wc > c.mWheelVehiclesResultsPerWheel.capacity)) := by
  refine ⟨runWheelFrames_caps_mono frames b, runWheelFrames_query_inv frames b hq, ?_⟩
  intro c av wc hc
  unfold updateWheelBuffers
  split_ifs with h <;> refine ⟨?_, ?_, ?_⟩ <;> simp [PodArray.resize]

/-- C7 witness: from empty buffers, a 4-wheel frame then a 2-wheel frame
leave the query-buffer capacity at its 4-wheel high-water mark. -/
theorem C7_wheelBuffers_monotone_witness :
    (runWheelFrames ⟨⟨0, 0⟩, ⟨0, 0⟩, ⟨0, 0⟩, ⟨0, 0⟩, none⟩
        [(1, 4), (1, 2)]).mWheelQueryResults.count =
      (runWheelFrames ⟨⟨0, 0⟩, ⟨0, 0⟩, ⟨0, 0⟩, ⟨0, 0⟩, none⟩
        [(1, 4), (1, 2)]).mWheelQueryResults.capacity ∧
    (0 : Nat) ≤ (runWheelFrames ⟨⟨0, 0⟩, ⟨0, 0⟩, ⟨0, 0⟩, ⟨0, 0⟩, none⟩
        [(1, 4), (1, 2)]).mWheelQueryResults.capacity := by
  have h := C7_wheelBuffers_monotone ⟨⟨0, 0⟩, ⟨0, 0⟩, ⟨0, 0⟩, ⟨0, 0⟩, none⟩
    [(1, 4), (1, 2)] rfl
  exact ⟨h.2.1, h.1.1⟩

/-! ## Per-vehicle wheel-query record setup -/

/-- A vehicle as the wheel-query setup loop observes it: its
hierarchy-active flag and the wheel count of its own drive
(`drive->mWheelsSimData.getNbWheels()`). -/
structure VehicleModel where
  activeInHierarchy : Bool
  wheelCount : Nat
deriving DecidableEq

/-- One per-vehicle wheel-query record
(`PxVehicleWheelQueryResult`): its wheel count and its offset into the
shared per-wheel result buffer. -/
structure PerVehicleRecord where
  nbWheelQueryResults : Nat
  wheelQueryResultsOffset : Nat
deriving DecidableEq

/-- Embedding of the record-setup loop of `PhysicsScene::CollectResults`
(PhysicsScene.cpp lines 493-505): `i` walks the registered vehicle list,
inactive vehicles are skipped, `ii` is the compacted active index — and
the drive whose wheel count is read is `mWheelVehicles[ii]` (the
`ii`-th entry of the uncompacted list), exactly as the source spells it. -/
def setupGo (all : List VehicleModel) :
    List VehicleModel → Nat → Nat → List PerVehicleRecord → List PerVehicleRecord
  | [], _, _, acc => acc
  | v :: rest, ii, wheels, acc =>
    if v.activeInHierarchy then
      let nb := (all.getD ii ⟨false, 0⟩).wheelCount
      setupGo all rest (ii + 1) (wheels + nb) (acc ++ [⟨nb, wheels⟩])
    else
      setupGo all rest ii wheels acc

/-- The per-vehicle wheel-query records one `CollectResults` frame
prepares for the batched vehicle update. -/
def setupWheelQueryRecords (vehicles : List VehicleModel) : List PerVehicleRecord :=
  setupGo vehicles vehicles 0 0 []

/-- The wheel counts the batched update actually needs: each active
vehicle's own drive wheel count, in registration order (this is what the
first loop of the vehicle pipeline, lines 289-296, accumulates). -/
def activeWheelCounts (vehicles : List VehicleModel) : List Nat :=
  (vehicles.filter fun v => v.activeInHierarchy).map fun v => v.wheelCount

/-- C10: with registered vehicles [active with 4 wheels, inactive with 2
wheels, active with 6 wheels], the record prepared for the second active
vehicle carries wheel count 2 — the inactive vehicle's, read through the
compacted index `ii` applied to the uncompacted list — instead of that
vehicle's own 6. -/
theorem C10_wheelRecord_mismatch :
    setupWheelQueryRecords [⟨true, 4⟩, ⟨false, 2⟩, ⟨true, 6⟩] = [⟨4, 0⟩, ⟨2, 4⟩] ∧
    activeWheelCounts [⟨true, 4⟩, ⟨false, 2⟩, ⟨true, 6⟩] = [4, 6] ∧
    (setupWheelQueryRecords [⟨true, 4⟩, ⟨false, 2⟩, ⟨true, 6⟩]).map
        (fun r => r.nbWheelQueryResults) ≠
      activeWheelCounts [⟨true, 4⟩, ⟨false, 2⟩, ⟨true, 6⟩] := by
  refine ⟨rfl, rfl, ?_⟩
  decide

end OB3D
